import Mathlib

/-!
Shallow embedding of the MAD websocket broker
(`mapadroid/websocket/WebsocketServer.py`) and proofs about the claims of
its natural-language specification.

Conventions:
* Python exceptions are modelled with `Except PyErr`.
* Machine strings are Lean `String`s; byte strings are `List Nat` (byte
  values).
* External collaborators (MappingManager, DataManager, WorkerFactory,
  check_auth) are oracles collected in an `Env` record, since only their
  observable answers matter to the broker code under verification.
-/

set_option autoImplicit false

namespace MAD

/-- Python exception kinds raised by the code paths under study. -/
inductive PyErr where
  | attributeError
  | indexError
  | valueError
  deriving DecidableEq, Repr

/-- Attribute access `x.f` on a possibly-`None` Python value: `None.f`
raises `AttributeError`. -/
def pyAttr {α : Type} : Option α → Except PyErr α
  | none => .error .attributeError
  | some a => .ok a

/-! ## Frame codec (`WebsocketServer.__on_message`, lines 350-362) -/

/-- Payload handed to `set_message_response`: the right part of a text
frame, or the tail bytes of a binary frame. -/
inductive Payload where
  | text (s : String)
  | bin (b : List Nat)
  deriving DecidableEq, Repr

/-- An inbound websocket frame: `str` or `bytes` in the Python source. -/
inductive Frame where
  | text (s : String)
  | binary (b : List Nat)
  deriving DecidableEq, Repr

/-- Characters Python's `str.strip()` / `int()` treat as whitespace
(space = 32, tab/newline/vertical-tab/form-feed/carriage-return = 9..13),
tested numerically on the code point. -/
def isSpaceChar (c : Char) : Bool := c.toNat = 32 || (9 ≤ c.toNat && c.toNat ≤ 13)

/-- ASCII digit test on the code point (48 = '0' .. 57 = '9'). -/
def isDigitChar (c : Char) : Bool := 48 ≤ c.toNat && c.toNat ≤ 57

/-- Decimal value of a digit string, most significant first. -/
def digitsVal (cs : List Char) : Nat := cs.foldl (fun n c => 10 * n + (c.toNat - 48)) 0

/-- Strip leading and trailing whitespace, as Python `int()` does before
parsing. -/
def pyStrip (cs : List Char) : List Char :=
  ((cs.dropWhile isSpaceChar).reverse.dropWhile isSpaceChar).reverse

/-- Core of Python `int(s)` after stripping: an optional sign
('-' = code point 45, '+' = 43) followed by a non-empty run of ASCII
digits; anything else raises `ValueError`.  (Underscore digit grouping
and non-ASCII digits, which Python also accepts, are not modelled; no
claim exercises them.) -/
def pyIntCore : List Char → Except PyErr Int
  | [] => .error .valueError
  | c :: rest =>
    if c.toNat = 45 then
      if rest ≠ [] ∧ rest.all isDigitChar then .ok (-(digitsVal rest : Int))
      else .error .valueError
    else if c.toNat = 43 then
      if rest ≠ [] ∧ rest.all isDigitChar then .ok ((digitsVal rest : Int))
      else .error .valueError
    else
      if (c :: rest).all isDigitChar then .ok ((digitsVal (c :: rest) : Int))
      else .error .valueError

/-- Python `int(s)` on a string, returning `ValueError` on parse failure. -/
def pyIntParse (s : String) : Except PyErr Int := pyIntCore (pyStrip s.toList)

/-- Scan for the first `';'`: `none` when absent, otherwise the characters
before it and the characters after it. -/
def splitSemiAux : List Char → Option (List Char × List Char)
  | [] => none
  | c :: rest =>
    if c = ';' then some ([], rest)
    else
      match splitSemiAux rest with
      | none => none
      | some (l, r) => some (c :: l, r)

/-- Python `s.split(";", 1)`: one piece when `s` holds no `';'`, otherwise
the part before the first `';'` and everything after it. -/
def pySplitOnce (s : String) : List String :=
  match splitSemiAux s.toList with
  | none => [s]
  | some (l, r) => [String.mk l, String.mk r]

/-- Python `int.from_bytes(b, byteorder='big', signed=False)`. -/
def intFromBytesBE (b : List Nat) : Nat := b.foldl (fun n byte => 256 * n + byte) 0

/-- `WebsocketServer.__on_message` (lines 350-362), up to the delivery call
`set_message_response(message_id, response)`: decodes a frame into
`(message_id, response)`.  For text frames the code runs
`splitup = message.split(";", 1)`, then `message_id = int(splitup[0])`
(a `ValueError` here precedes the `IndexError` of `splitup[1]` when the
separator is missing); for binary frames it takes
`int.from_bytes(message[:4], 'big')` and `message[4:]`. -/
def on_message : Frame → Except PyErr (Int × Payload)
  | .text s =>
    match pySplitOnce s with
    | [l] =>
      (match pyIntParse l with
       | .error e => .error e
       | .ok _ => .error .indexError)
    | [l, r] =>
      (match pyIntParse l with
       | .error e => .error e
       | .ok mid => .ok (mid, .text r))
    | _ => .error .indexError
  | .binary b => .ok ((intFromBytesBE (b.take 4) : Int), .bin (b.drop 4))

/-- `WebsocketServer.__client_message_receiver` (lines 326-348), observed
through the frames it actually receives: the loop takes each received
frame in order and runs `await self.__on_message(...)` on it.  There is no
exception handler around that call, so a decode error propagates and ends
the coroutine; otherwise the decoded pair is delivered.  The function
returns the list of delivered `(message_id, response)` pairs, or the first
decode error. -/
def receiver_deliveries : List Frame → Except PyErr (List (Int × Payload))
  | [] => .ok []
  | f :: fs =>
    match on_message f with
    | .error e => .error e
    | .ok d =>
      match receiver_deliveries fs with
      | .error e => .error e
      | .ok ds => .ok (d :: ds)

/-! ## Codec lemmas -/

theorem digit_not_space {c : Char} (h : isDigitChar c = true) : isSpaceChar c = false := by
  simp [isDigitChar, isSpaceChar] at *
  omega

theorem digitChar_ne_semi {c : Char} (h : isDigitChar c = true) : c ≠ ';' := by
  intro heq
  rw [heq] at h
  exact absurd h (by decide)

theorem dropWhile_space_of_digits (l : List Char) (h : ∀ c ∈ l, isDigitChar c = true) :
    l.dropWhile isSpaceChar = l := by
  cases l with
  | nil => rfl
  | cons c rest =>
    have hc : isSpaceChar c = false := digit_not_space (h c (by simp))
    simp [List.dropWhile_cons, hc]

theorem pyStrip_of_digits (l : List Char) (h : ∀ c ∈ l, isDigitChar c = true) :
    pyStrip l = l := by
  unfold pyStrip
  rw [dropWhile_space_of_digits l h]
  rw [dropWhile_space_of_digits l.reverse (fun c hc => h c (List.mem_reverse.mp hc))]
  exact List.reverse_reverse l

theorem splitSemiAux_append (ds p : List Char) (h : ∀ c ∈ ds, c ≠ ';') :
    splitSemiAux (ds ++ ';' :: p) = some (ds, p) := by
  induction ds with
  | nil => simp [splitSemiAux]
  | cons d rest ih =>
    have hd : d ≠ ';' := h d (by simp)
    simp [splitSemiAux, hd, ih (fun c hc => h c (by simp [hc]))]

theorem pyIntCore_digits (ds : List Char) (hne : ds ≠ []) (h : ∀ c ∈ ds, isDigitChar c = true) :
    pyIntCore ds = .ok ((digitsVal ds : Int)) := by
  cases ds with
  | nil => exact absurd rfl hne
  | cons d rest =>
    have hd : isDigitChar d = true := h d (by simp)
    have hdn : 48 ≤ d.toNat ∧ d.toNat ≤ 57 := by
      simpa [isDigitChar] using hd
    have h45 : ¬(d.toNat = 45) := by omega
    have h43 : ¬(d.toNat = 43) := by omega
    have hall : (d :: rest).all isDigitChar = true := by
      rw [List.all_eq_true]
      intro c hc
      exact h c hc
    simp [pyIntCore, h45, h43, hall]

theorem pyIntParse_digits (ds : List Char) (hne : ds ≠ []) (h : ∀ c ∈ ds, isDigitChar c = true) :
    pyIntParse (String.mk ds) = .ok ((digitsVal ds : Int)) := by
  unfold pyIntParse
  have htl : (String.mk ds).toList = ds := rfl
  rw [htl, pyStrip_of_digits ds h, pyIntCore_digits ds hne h]

/-! ## Claims C6 and C1 -/

/-- C6: for every text frame `"<ascii_digits>;<payload>"` the decoder splits
on the first `';'`, parses the left part as an unsigned integer and keeps
the right part (which may itself contain `';'`) as the payload; for every
binary frame of at least 4 bytes it yields the big-endian unsigned integer
of the first 4 bytes and the remaining bytes as payload. -/
theorem c6_codec (ds p : List Char) (b0 b1 b2 b3 : Nat) (rest : List Nat)
    (hne : ds ≠ []) (hdig : ∀ c ∈ ds, isDigitChar c = true) :
    on_message (.text (String.mk (ds ++ ';' :: p))) =
      .ok ((digitsVal ds : Int), .text (String.mk p)) ∧
    on_message (.binary (b0 :: b1 :: b2 :: b3 :: rest)) =
      .ok (((b0 * 16777216 + b1 * 65536 + b2 * 256 + b3 : Nat) : Int), .bin rest) := by
  constructor
  · have hsplit : pySplitOnce (String.mk (ds ++ ';' :: p)) = [String.mk ds, String.mk p] := by
      unfold pySplitOnce
      have htl : (String.mk (ds ++ ';' :: p)).toList = ds ++ ';' :: p := rfl
      rw [htl, splitSemiAux_append ds p (fun c hc => digitChar_ne_semi (hdig c hc))]
    rw [on_message, hsplit]
    simp [pyIntParse_digits ds hne hdig]
  · show Except.ok ((intFromBytesBE ((b0 :: b1 :: b2 :: b3 :: rest).take 4) : Int),
      Payload.bin ((b0 :: b1 :: b2 :: b3 :: rest).drop 4)) = _
    have hval : intFromBytesBE ((b0 :: b1 :: b2 :: b3 :: rest).take 4) =
        b0 * 16777216 + b1 * 65536 + b2 * 256 + b3 := by
      simp [intFromBytesBE, List.take, List.foldl]
      ring
    rw [hval]
    rfl

/-- C6 witness: the codec theorem applied to the concrete frames
`"42;po"` and the byte string `[0, 0, 0, 5, 9]`. -/
theorem c6_codec_witness :
    on_message (.text (String.mk (['4', '2'] ++ ';' :: ['p', 'o']))) =
      .ok ((digitsVal ['4', '2'] : Int), .text (String.mk ['p', 'o'])) ∧
    on_message (.binary (0 :: 0 :: 0 :: 5 :: [9])) =
      .ok (((0 * 16777216 + 0 * 65536 + 0 * 256 + 5 : Nat) : Int), .bin [9]) :=
  c6_codec ['4', '2'] ['p', 'o'] 0 0 0 5 [9] (by decide) (by decide)

/-- C1 counterexample: the claim says a malformed text frame is dropped and
the receive loop continues on the same connection.  On the frame sequence
`["abc", "1;ok"]` the receiver instead stops with the decode error of the
first frame (`int("abc")` raises `ValueError`, and `__client_message_receiver`
has no handler around `__on_message`), whereas drop-and-continue would have
delivered `(1, "ok")` as the run on `["1;ok"]` alone shows. -/
theorem c1_counterexample :
    receiver_deliveries [Frame.text "abc", Frame.text "1;ok"] = .error .valueError ∧
    receiver_deliveries [Frame.text "1;ok"] = .ok [((1 : Int), Payload.text "ok")] :=
  ⟨rfl, rfl⟩

/-- C1 amended: a malformed inbound text frame is not dropped; its decode
error propagates out of `__on_message` and terminates the receive loop, so
no later frame of that connection is processed (the connection handler's
catch-all then runs the cleanup path). -/
theorem c1_amended_receiver (f : Frame) (fs : List Frame) (e : PyErr)
    (h : on_message f = .error e) :
    receiver_deliveries (f :: fs) = .error e := by
  simp [receiver_deliveries, h]

/-- C1 witness: the amended theorem applied to the malformed frame `"abc"`
followed by the well-formed frame `"1;ok"`. -/
theorem c1_amended_receiver_witness :
    receiver_deliveries [Frame.text "abc", Frame.text "1;ok"] = .error PyErr.valueError :=
  c1_amended_receiver (Frame.text "abc") [Frame.text "1;ok"] .valueError rfl

/-! ## Server data model (`WebsocketServer.__init__` and collaborators) -/

/-- A websocket transport (`websockets.WebSocketClientProtocol`): identified
by a tag, with its `open` flag. -/
structure Conn where
  id : Nat
  isOpen : Bool
  deriving DecidableEq, Repr

/-- A `threading.Thread` wrapping `worker.start_worker` (named after the
origin; `is_alive()` observed as a flag). -/
structure WorkerThread where
  name : String
  is_alive : Bool
  deriving DecidableEq, Repr

/-- An `AbstractWorker`: its communicator (modelled by a tag), the answer of
`is_stopping()`, and whether `stop_worker()` has been called on it. -/
structure Worker where
  communicator : Nat
  is_stopping : Bool
  stop_requested : Bool
  deriving DecidableEq, Repr

/-- `WebsocketConnectedClientEntry`: the per-origin record kept in
`__current_users`.  `worker_thread` and `worker_instance` are `None` when
the entry was built but no worker was attached yet. -/
structure Entry where
  origin : String
  websocket_client_connection : Conn
  worker_thread : Option WorkerThread
  worker_instance : Option Worker
  deriving DecidableEq, Repr

/-- A device record from `data_manager.search('device', ...)`. -/
structure Device where
  identifier : Nat
  deriving DecidableEq, Repr

/-- The `MappingManager` oracle: the keys of `get_all_devicemappings()` and
the list `get_auths()`. -/
structure MappingManager where
  devicemappings : List String
  auths : List String
  deriving DecidableEq, Repr

/-- Mutable broker state: `__current_users` (an origin-keyed map),
`__users_connecting`, the `__stop_server` event, and whether the internal
worker-join thread has been started. -/
structure ServerState where
  current_users : List (String × Entry)
  users_connecting : List String
  stop_flag : Bool
  join_thread_alive : Bool
  deriving DecidableEq, Repr

/-- External collaborators of the broker, as observation oracles:
the optional mapping manager, `data_manager.search('device', origin)`
collapsed to the matching device (the code iterates the result dict and
picks the entry whose `origin` matches), `data_manager.is_device_active`,
`WorkerFactory.get_worker_using_settings origin use_configmode`, the
`check_auth` predicate on the Authorization header value, and the
constructor flag `enable_configmode`. -/
structure Env where
  mapping_manager : Option MappingManager
  deviceSearch : String → Option Device
  is_device_active : Nat → Bool
  factory : String → Bool → Option Worker
  check_auth : String → Bool
  enable_configmode : Bool

/-- Python dict lookup `d.get(origin, None)` on the origin-keyed map. -/
def mapGet (l : List (String × Entry)) (o : String) : Option Entry :=
  match l with
  | [] => none
  | (k, v) :: rest => if k = o then some v else mapGet rest o

/-- Python dict assignment `d[origin] = entry`. -/
def mapSet (l : List (String × Entry)) (o : String) (e : Entry) : List (String × Entry) :=
  match l with
  | [] => [(o, e)]
  | (k, v) :: rest => if k = o then (o, e) :: rest else (k, v) :: mapSet rest o e

/-- `request_headers.get_all(name)` over the handshake header list. -/
def getAllHeaders (headers : List (String × String)) (name : String) : List String :=
  (headers.filter (fun p => p.1 = name)).map Prod.snd

/-! ## Authenticator (`__authenticate_connection`, lines 286-324) -/

/-- `WebsocketServer.__authenticate_connection`: extract the `Origin`
header (absent → `(None, False)`); then the mapping-manager check — note
the source line `(origin, False)` at line 304 is a bare expression, not a
`return`, so when the mapping manager is `None` control falls through to
`valid_auths = self.__mapping_manager.get_auths()`, which raises
`AttributeError` on `None`; then the known-origin check (the two advisory
warnings — device present in `data_manager` or not — both end in
`return (origin, False)`); then, when auths are configured, the
`Authorization` header is required (absent → `(origin, False)`) and is
validated by `check_auth` only when the extracted string is truthy, i.e.
non-empty. -/
def authenticate_connection (env : Env) (headers : List (String × String)) :
    Except PyErr (Option String × Bool) :=
  match getAllHeaders headers "Origin" with
  | [] => .ok (none, false)
  | origin :: _ =>
    match env.mapping_manager with
    | none => .error .attributeError
    | some mm =>
      if origin ∈ mm.devicemappings then
        let valid_auths := mm.auths
        if valid_auths = [] then
          .ok (some origin, true)
        else
          match getAllHeaders headers "Authorization" with
          | [] => .ok (some origin, false)
          | auth_base64 :: _ =>
            if auth_base64 ≠ "" ∧ env.check_auth auth_base64 = false then
              .ok (some origin, false)
            else
              .ok (some origin, true)
      else
        .ok (some origin, false)

/-! ## Connection handler (`__connection_handler`, lines 156-268) -/

/-- Lines 187-196 of `__connection_handler`: `use_configmode` starts as
`self.__enable_configmode`; outside config mode the device record is looked
up (`device` stays `None` when no record matches, so the subsequent
`device.identifier` in the `is_device_active` call raises
`AttributeError`), and a paused device forces `use_configmode = True`. -/
def compute_use_configmode (env : Env) (origin : String) : Except PyErr Bool :=
  if env.enable_configmode then .ok true
  else
    match env.deviceSearch origin with
    | none => .error .attributeError
    | some device => .ok (!env.is_device_active device.identifier)

/-- `__add_worker_and_thread_to_entry` (lines 270-284): build a
communicator, ask the factory for a worker (`None` → `False`, i.e. no
update), otherwise attach a fresh (not yet started) daemon thread named
after the origin and the worker to the entry. -/
def add_worker_and_thread_to_entry (env : Env) (entry : Entry) (origin : String)
    (use_configmode : Bool) : Option Entry :=
  match env.factory origin use_configmode with
  | none => none
  | some worker =>
    some { entry with
            worker_thread := some { name := origin, is_alive := false },
            worker_instance := some worker }

/-- Lines 197-230 of `__connection_handler`: the admission decision under
`__current_users_mutex`.  Returns `continue_register` together with the
entry that line 232 would publish.  `entry is None or use_configmode`
builds a brand-new entry around the new connection and asks the factory;
otherwise the decision chain on the existing entry runs: old connection
still open → reject; worker thread alive and not stopping → reject;
thread dead → rebuild worker on the entry via the factory and, on
success, install the new connection (line 230); else (alive and stopping)
→ reject. -/
def admission_decision (env : Env) (conn : Conn) (origin : String)
    (entryOpt : Option Entry) (use_configmode : Bool) : Except PyErr (Bool × Entry) :=
  match entryOpt with
  | none =>
    let entry0 : Entry := ⟨origin, conn, none, none⟩
    (match add_worker_and_thread_to_entry env entry0 origin use_configmode with
     | none => .ok (false, entry0)
     | some entry => .ok (true, entry))
  | some e =>
    if use_configmode then
      let entry0 : Entry := ⟨origin, conn, none, none⟩
      (match add_worker_and_thread_to_entry env entry0 origin use_configmode with
       | none => .ok (false, entry0)
       | some entry => .ok (true, entry))
    else
      if e.websocket_client_connection.isOpen then
        .ok (false, e)
      else
        match e.worker_thread with
        | none => .error .attributeError
        | some th =>
          if th.is_alive then
            match e.worker_instance with
            | none => .error .attributeError
            | some w =>
              if !w.is_stopping then
                .ok (false, e)
              else
                .ok (false, e)
          else
            match add_worker_and_thread_to_entry env e origin use_configmode with
            | none => .ok (false, e)
            | some e2 => .ok (true, { e2 with websocket_client_connection := conn })

/-- The whole `async with self.__current_users_mutex` block (lines
184-232): compute `use_configmode`, run the admission decision on the
present entry, and publish the entry in `__current_users` exactly when
`continue_register` holds (lines 231-232). -/
def admission (env : Env) (conn : Conn) (origin : String) (s : ServerState) :
    Except PyErr (Bool × Entry × ServerState) :=
  match compute_use_configmode env origin with
  | .error e => .error e
  | .ok use_configmode =>
    match admission_decision env conn origin (mapGet s.current_users origin) use_configmode with
    | .error e => .error e
    | .ok (false, entry) => .ok (false, entry, s)
    | .ok (true, entry) =>
      .ok (true, entry, { s with current_users := mapSet s.current_users origin entry })

/-- Outcome of one `__connection_handler` invocation. -/
inductive HandlerResult where
  | droppedShutdown
  | authFailed (origin : Option String)
  | alreadyConnecting (origin : String)
  | rejected (origin : String) (sleepTime : ℚ)
  | registered (origin : String) (entry : Entry)
  | raised (e : PyErr)
  deriving DecidableEq

/-- `__connection_handler` from entry (line 159) up to the start of the
receive loop, returning the outcome and the broker state it leaves behind.
`randDraw` is the value returned by `rand.uniform(3, 15)` at line 235.
Steps: drop when the stop event is set; authenticate (a raised exception
is swallowed by the `@logger.catch()` decorator, leaving the state as it
stands — the dead `(None, True)` branch cannot occur, see
`authenticate_accept_has_origin`); reject a concurrent handshake for an
origin already in `__users_connecting`, else insert it; run the admission
block; on `continue_register = False`, sleep `rand.uniform(3, 15)` and
remove the origin from `__users_connecting` (lines 234-240); otherwise
start the worker thread if it is not alive, remove the origin from
`__users_connecting` and hand over to the receive loop (lines 242-254). -/
def connection_handler (env : Env) (headers : List (String × String)) (conn : Conn)
    (randDraw : ℚ) (s : ServerState) : HandlerResult × ServerState :=
  if s.stop_flag then (.droppedShutdown, s)
  else
    match authenticate_connection env headers with
    | .error e => (.raised e, s)
    | .ok (originOpt, success) =>
      if success = false then (.authFailed originOpt, s)
      else
        match originOpt with
        | none => (.raised .attributeError, s)
        | some origin =>
          if origin ∈ s.users_connecting then (.alreadyConnecting origin, s)
          else
            let s1 : ServerState := { s with users_connecting := origin :: s.users_connecting }
            match admission env conn origin s1 with
            | .error e => (.raised e, s1)
            | .ok (false, _entry, s2) =>
              (.rejected origin randDraw,
               { s2 with users_connecting := s2.users_connecting.erase origin })
            | .ok (true, entry, s2) =>
              match entry.worker_thread with
              | none => (.raised .attributeError, s2)
              | some th =>
                let entry2 := if th.is_alive then entry
                              else { entry with worker_thread := some { th with is_alive := true } }
                (.registered origin entry2,
                 { s2 with current_users := mapSet s2.current_users origin entry2,
                           users_connecting := s2.users_connecting.erase origin })

/-- The authenticator never accepts without an origin, so the handler's
`(None, True)` branch is dead. -/
theorem authenticate_accept_has_origin (env : Env) (headers : List (String × String)) :
    authenticate_connection env headers ≠ .ok (none, true) := by
  unfold authenticate_connection
  repeat' split
  all_goals try simp
  all_goals (split <;> simp)

/-! ## Shutdown (`stop_server`, lines 111-131) and startup (`start_server`,
lines 84-100) -/

/-- Body of `__close_all_connections_and_signal_stop` for one entry:
`worker_entry.worker_instance.stop_worker()` (an `AttributeError` on a
worker-less entry) followed by closing the entry's connection. -/
def close_entry (e : Entry) : Except PyErr Entry :=
  match e.worker_instance with
  | none => .error .attributeError
  | some w =>
    .ok { e with
           worker_instance := some { w with stop_requested := true },
           websocket_client_connection := { e.websocket_client_connection with isOpen := false } }

/-- `__close_all_connections_and_signal_stop` (lines 102-109): under
`__current_users_mutex`, stop every worker and close every connection; the
map itself is not modified beyond its entries' objects. -/
def close_all_connections_and_signal_stop (l : List (String × Entry)) :
    Except PyErr (List (String × Entry)) :=
  match l with
  | [] => .ok []
  | (o, e) :: rest =>
    match close_entry e with
    | .error err => .error err
    | .ok e2 =>
      match close_all_connections_and_signal_stop rest with
      | .error err => .error err
      | .ok rest2 => .ok ((o, e2) :: rest2)

/-- Result of `stop_server`: `hangs` models the busy wait
`while len(self.__users_connecting) > 0: time.sleep(1)` never returning
when the connecting set is non-empty (and no handler is left to empty
it); `errored` models an exception surfacing through `future.result()`. -/
inductive StopResult where
  | hangs
  | errored (e : PyErr)
  | stopped (s : ServerState)
  deriving DecidableEq, Repr

/-- `stop_server` (lines 111-131): set the `__stop_server` event, busy-wait
on `__users_connecting`, run `__close_all_connections_and_signal_stop` on
the loop, wait for the join queue, stop the loop.  Note: it never removes
any key from `__current_users`. -/
def stop_server (s : ServerState) : StopResult :=
  let s1 : ServerState := { s with stop_flag := true }
  if s1.users_connecting = [] then
    match close_all_connections_and_signal_stop s1.current_users with
    | .error e => .errored e
    | .ok users => .stopped { s1 with current_users := users }
  else .hangs

/-- `start_server` (lines 84-100): set the event loop, start the internal
worker-join thread when it is not alive, install the mutexes, and serve.
It touches neither `__current_users` nor `__users_connecting` nor the
`__stop_server` event. -/
def start_server (s : ServerState) : ServerState :=
  { s with join_thread_alive := true }

/-! ## Worker reaper (`__internal_worker_join`, lines 133-154) -/

/-- State visible to the `__internal_worker_join` thread: the
`__stop_server` flag and the `__worker_shutdown_queue` contents. -/
structure ReaperState where
  stop : Bool
  queue : List WorkerThread
  deriving DecidableEq, Repr

/-- The `while` guard of `__internal_worker_join` (lines 134-135):
`not stop or (stop and not queue.empty())`. -/
def reaper_loop_continues (stop : Bool) (queueEmpty : Bool) : Bool :=
  !stop || (stop && !queueEmpty)

/-- The join bound passed to `next_item.join(10)` at line 144, in seconds. -/
def reaper_join_bound : Nat := 10

/-- One observable step of the reaper loop. -/
inductive ReaperStep where
  | exited
  | sleptEmpty (next : ReaperState)
  | joined (t : WorkerThread) (joinBoundSeconds : Nat) (requeued : Bool) (next : ReaperState)
  deriving DecidableEq, Repr

/-- One iteration of `__internal_worker_join`: check the guard; when the
queue is empty, `get_nowait` raises `queue.Empty`, so sleep one second and
loop; otherwise join the dequeued thread with the 10-second bound (a
`RuntimeError` from a never-started thread is caught and logged) and
requeue it when `is_alive()` still holds afterwards.  `aliveAfterJoin`
reports `next_item.is_alive()` after the bounded join. -/
def reaper_step (aliveAfterJoin : WorkerThread → Bool) (st : ReaperState) : ReaperStep :=
  if reaper_loop_continues st.stop st.queue.isEmpty then
    match st.queue with
    | [] => .sleptEmpty st
    | t :: rest =>
      let requeue := aliveAfterJoin t
      .joined t reaper_join_bound requeue
        { st with queue := if requeue then rest ++ [t] else rest }
  else .exited

/-! ## Accessors (`get_origin_communicator`, lines 387-392) -/

/-- A Python value of the annotated type `Optional[AbstractCommunicator]`,
plus the `False` the code actually returns on a miss. -/
inductive CommunicatorResult where
  | comm (c : Nat)
  | pyNone
  | pyFalse
  deriving DecidableEq, Repr

/-- `get_origin_communicator`: `entry.worker_instance.communicator` when
the entry exists and holds a worker, and the literal `False` otherwise —
despite the `Optional[AbstractCommunicator]` annotation. -/
def get_origin_communicator (s : ServerState) (origin : String) : CommunicatorResult :=
  match mapGet s.current_users origin with
  | none => .pyFalse
  | some entry =>
    match entry.worker_instance with
    | none => .pyFalse
    | some w => .comm w.communicator

/-! ## Helper lemmas on the handler and shutdown -/

/-- When the admission block says `continue_register = False`, it leaves the
broker state exactly as it found it (lines 231-232 run only on success). -/
theorem admission_reject_state {env : Env} {conn : Conn} {origin : String} {s : ServerState}
    {entry : Entry} {s' : ServerState}
    (h : admission env conn origin s = .ok (false, entry, s')) : s' = s := by
  unfold admission at h
  split at h
  · simp at h
  · split at h
    · simp at h
    · simp_all
    · simp at h

/-- `__close_all_connections_and_signal_stop` never adds or removes a key of
`__current_users`. -/
theorem close_all_keys (l l2 : List (String × Entry))
    (h : close_all_connections_and_signal_stop l = .ok l2) :
    l2.map Prod.fst = l.map Prod.fst := by
  induction l generalizing l2 with
  | nil =>
    unfold close_all_connections_and_signal_stop at h
    simp at h
    simp [← h]
  | cons p rest ih =>
    unfold close_all_connections_and_signal_stop at h
    split at h
    · simp at h
    · split at h
      · simp at h
      · simp only [Except.ok.injEq] at h
        subst h
        simp only [List.map_cons]
        rw [ih _ (by assumption)]

/-! ## Claims about the authenticator (C2, C7) -/

/-- Environment with no mapping manager configured. -/
def envNoMapping : Env :=
  { mapping_manager := none,
    deviceSearch := fun _ => none,
    is_device_active := fun _ => true,
    factory := fun _ _ => none,
    check_auth := fun _ => true,
    enable_configmode := false }

/-- C2: the claim says an unconfigured mapping manager makes authentication
return `(origin, reject)` rather than proceeding or raising.  The code is a
slip: line 304 reads `(origin, False)` without `return`, a bare expression,
so control falls through to `valid_auths = self.__mapping_manager.get_auths()`
which raises `AttributeError` on `None`.  Evaluating the embedded code on a
handshake carrying `Origin: dev1` with `mapping_manager = None` shows the
raise. -/
theorem c2_mapping_manager_none_raises :
    authenticate_connection envNoMapping [("Origin", "dev1")] = .error .attributeError ∧
    envNoMapping.mapping_manager = none :=
  ⟨rfl, rfl⟩

/-- Environment with a known device `dev1` and a configured auth list, whose
`check_auth` accepts exactly the credential string `"secret"`. -/
def envAuth : Env :=
  { mapping_manager := some ⟨["dev1"], ["secret"]⟩,
    deviceSearch := fun _ => none,
    is_device_active := fun _ => true,
    factory := fun _ _ => none,
    check_auth := fun a => a = "secret",
    enable_configmode := false }

/-- C7 counterexample: the claim says that with a non-empty auth list the
handshake is accepted only when the `Authorization` header is present and
validates via the auth check.  With an empty-string `Authorization` header
the guard `valid_auths and auth_base64 and not check_auth(...)` (line 322)
short-circuits on the falsy empty string, so `check_auth` is never
consulted — here it would have rejected (`check_auth "" = false`) — and the
connection is accepted. -/
theorem c7_counterexample :
    authenticate_connection envAuth [("Origin", "dev1"), ("Authorization", "")] =
      .ok (some "dev1", true) ∧
    envAuth.check_auth "" = false :=
  ⟨rfl, rfl⟩

/-- C7 amended: for a known origin with a non-empty configured auth list, a
missing `Authorization` header yields `(origin, reject)`; a present
non-empty header is validated by the auth check, which decides acceptance;
but a present empty-string header skips validation and is accepted. -/
theorem c7_amended_auth (env : Env) (mm : MappingManager) (origin a : String)
    (hmm : env.mapping_manager = some mm)
    (horg : origin ∈ mm.devicemappings)
    (hauths : mm.auths ≠ [])
    (hne : a ≠ "") :
    authenticate_connection env [("Origin", origin)] = .ok (some origin, false) ∧
    authenticate_connection env [("Origin", origin), ("Authorization", a)] =
      .ok (some origin, env.check_auth a) ∧
    authenticate_connection env [("Origin", origin), ("Authorization", "")] =
      .ok (some origin, true) := by
  refine ⟨?_, ?_, ?_⟩
  · simp [authenticate_connection, getAllHeaders, hmm, horg, hauths]
  · simp [authenticate_connection, getAllHeaders, hmm, horg, hauths, hne]
    by_cases hc : env.check_auth a
    · simp [hc]
    · simp [hc]
  · simp [authenticate_connection, getAllHeaders, hmm, horg, hauths]

/-- C7 witness: the amended theorem applied to `envAuth`, origin `dev1` and
the invalid non-empty credential `"wrong"`. -/
theorem c7_amended_auth_witness :
    authenticate_connection envAuth [("Origin", "dev1")] = .ok (some "dev1", false) ∧
    authenticate_connection envAuth [("Origin", "dev1"), ("Authorization", "wrong")] =
      .ok (some "dev1", envAuth.check_auth "wrong") ∧
    authenticate_connection envAuth [("Origin", "dev1"), ("Authorization", "")] =
      .ok (some "dev1", true) :=
  c7_amended_auth envAuth ⟨["dev1"], ["secret"]⟩ "dev1" "wrong" rfl (by decide) (by decide)
    (by decide)

/-! ## Claims about the connection handler (C3, C5, C10) -/

/-- C3: a new authenticated connection for an origin whose registry entry
exists, with config mode disabled, the device active, and the entry's prior
transport still open, is rejected (`continue_register = False`): the handler
backs off and returns with `__current_users` — in particular the entry and
its transport — and `__users_connecting` exactly as before the attempt. -/
theorem c3_reject_when_open (env : Env) (headers : List (String × String)) (conn : Conn)
    (randDraw : ℚ) (s : ServerState) (origin : String) (e : Entry) (dev : Device)
    (hstop : s.stop_flag = false)
    (hauth : authenticate_connection env headers = .ok (some origin, true))
    (hconn : origin ∉ s.users_connecting)
    (hcfg : env.enable_configmode = false)
    (hdev : env.deviceSearch origin = some dev)
    (hact : env.is_device_active dev.identifier = true)
    (hentry : mapGet s.current_users origin = some e)
    (hopen : e.websocket_client_connection.isOpen = true) :
    connection_handler env headers conn randDraw s = (.rejected origin randDraw, s) := by
  simp only [connection_handler, hstop, hauth, hconn, Bool.false_eq_true, if_false]
  simp only [admission, compute_use_configmode, hcfg, hdev, hact, admission_decision, hentry,
    hopen, Bool.not_true, if_false, if_neg hconn]
  simp [List.erase_cons_head]
  rw [← hstop]

/-- Entry, device and environment for the C3 witness: `dev1` is registered
with an open connection and a live worker. -/
def entryOpenC3 : Entry :=
  { origin := "dev1",
    websocket_client_connection := ⟨1, true⟩,
    worker_thread := some ⟨"dev1", true⟩,
    worker_instance := some ⟨0, false, false⟩ }

/-- Environment for the C3 witness: `dev1` known, no auths, device record
`7` active, config mode off. -/
def envC3 : Env :=
  { mapping_manager := some ⟨["dev1"], []⟩,
    deviceSearch := fun _ => some ⟨7⟩,
    is_device_active := fun _ => true,
    factory := fun _ _ => none,
    check_auth := fun _ => true,
    enable_configmode := false }

/-- Broker state for the C3 witness. -/
def sC3 : ServerState :=
  { current_users := [("dev1", entryOpenC3)],
    users_connecting := [],
    stop_flag := false,
    join_thread_alive := true }

/-- C3 witness: the rejection theorem applied to the concrete state in which
`dev1` reconnects while its old transport is still open. -/
theorem c3_reject_when_open_witness :
    connection_handler envC3 [("Origin", "dev1")] ⟨2, true⟩ 7 sC3 =
      (.rejected "dev1" 7, sC3) :=
  c3_reject_when_open envC3 [("Origin", "dev1")] ⟨2, true⟩ 7 sC3 "dev1" entryOpenC3 ⟨7⟩
    rfl rfl (by simp [sC3]) rfl rfl rfl rfl rfl

/-- C5: whenever the admission block decides `continue_register = False`
(decision-table rejection or factory failure alike), the handler sleeps the
`rand.uniform(3, 15)` draw — always a value in `[3, 15]` — removes the
origin from `__users_connecting`, and returns with `__current_users` and
`__users_connecting` exactly as before the attempt. -/
theorem c5_reject_backoff (env : Env) (headers : List (String × String)) (conn : Conn)
    (randDraw : ℚ) (s : ServerState) (origin : String) (entry : Entry) (s2 : ServerState)
    (hstop : s.stop_flag = false)
    (hauth : authenticate_connection env headers = .ok (some origin, true))
    (hconn : origin ∉ s.users_connecting)
    (hadm : admission env conn origin { s with users_connecting := origin :: s.users_connecting } =
      .ok (false, entry, s2))
    (hlo : 3 ≤ randDraw) (hhi : randDraw ≤ 15) :
    connection_handler env headers conn randDraw s = (.rejected origin randDraw, s) ∧
      3 ≤ randDraw ∧ randDraw ≤ 15 := by
  have hs2 : s2 = { s with users_connecting := origin :: s.users_connecting } :=
    admission_reject_state hadm
  subst hs2
  rw [hstop] at hadm
  refine ⟨?_, hlo, hhi⟩
  simp only [connection_handler, hstop, hauth, if_neg hconn, Bool.true_eq_false, if_false]
  rw [hadm]
  simp [List.erase_cons_head]
  rw [← hstop]

/-- Broker state for the C5 witness: empty registry, nobody connecting. -/
def sC5 : ServerState :=
  { current_users := [],
    users_connecting := [],
    stop_flag := false,
    join_thread_alive := true }

/-- C5 witness: the backoff theorem applied to a concrete attempt whose
worker factory fails (`envC3.factory` returns `None`), with the uniform
draw landing at `7`. -/
theorem c5_reject_backoff_witness :
    connection_handler envC3 [("Origin", "dev1")] ⟨2, true⟩ 7 sC5 =
      (.rejected "dev1" 7, sC5) ∧ (3 : ℚ) ≤ 7 ∧ (7 : ℚ) ≤ 15 :=
  c5_reject_backoff envC3 [("Origin", "dev1")] ⟨2, true⟩ 7 sC5 "dev1"
    ⟨"dev1", ⟨2, true⟩, none, none⟩ { sC5 with users_connecting := ["dev1"] }
    rfl rfl (by simp [sC5]) rfl (by norm_num) (by norm_num)

/-- Environment for C10: `dev1` is known to the mapping manager (so
authentication passes, no auths configured) but `data_manager` has no
device record for it, and config mode is off. -/
def envC10 : Env :=
  { mapping_manager := some ⟨["dev1"], []⟩,
    deviceSearch := fun _ => none,
    is_device_active := fun _ => true,
    factory := fun _ _ => none,
    check_auth := fun _ => true,
    enable_configmode := false }

/-- Initial broker state for C10. -/
def sC10 : ServerState :=
  { current_users := [],
    users_connecting := [],
    stop_flag := false,
    join_thread_alive := true }

/-- Broker state C10 leaves behind: `dev1` stuck in `__users_connecting`. -/
def sC10stuck : ServerState :=
  { current_users := [],
    users_connecting := ["dev1"],
    stop_flag := false,
    join_thread_alive := true }

/-- C10: in non-config mode an authenticated origin with no device record
makes the admission block raise (`device` stays `None`, so
`device.identifier` raises `AttributeError`) after the origin was inserted
into `__users_connecting` and before any removal; the `@logger.catch()`
decorator swallows the exception, so the origin stays in the connecting
set, every later connection for it is dropped at admission
(`alreadyConnecting`), and the busy wait of `stop_server` on
`__users_connecting` cannot terminate. -/
theorem c10_stuck_connecting :
    connection_handler envC10 [("Origin", "dev1")] ⟨1, true⟩ 5 sC10 =
      (.raised .attributeError, sC10stuck) ∧
    sC10stuck.users_connecting = ["dev1"] ∧
    (connection_handler envC10 [("Origin", "dev1")] ⟨2, true⟩ 5 sC10stuck).1 =
      .alreadyConnecting "dev1" ∧
    stop_server sC10stuck = .hangs :=
  ⟨rfl, rfl, rfl, rfl⟩

/-! ## Claims about shutdown and startup (C4) -/

/-- Registered entry for the C4 counterexample. -/
def entryC4 : Entry :=
  { origin := "dev1",
    websocket_client_connection := ⟨1, true⟩,
    worker_thread := some ⟨"dev1", true⟩,
    worker_instance := some ⟨0, false, false⟩ }

/-- Broker state before shutdown for the C4 counterexample. -/
def sC4 : ServerState :=
  { current_users := [("dev1", entryC4)],
    users_connecting := [],
    stop_flag := false,
    join_thread_alive := true }

/-- Broker state `stop_server` computes from `sC4`: worker stopped and
connection closed, but the registry key survives. -/
def sC4stopped : ServerState :=
  { current_users := [("dev1",
      { origin := "dev1",
        websocket_client_connection := ⟨1, false⟩,
        worker_thread := some ⟨"dev1", true⟩,
        worker_instance := some ⟨0, false, true⟩ })],
    users_connecting := [],
    stop_flag := true,
    join_thread_alive := true }

/-- C4 counterexample: the claim says `stop_server()` followed by
`start_server()` yields an empty registry.  Starting from a registry
holding `dev1`, `stop_server` stops the worker and closes the transport
but deletes no key, and `start_server` clears nothing either, so `dev1`'s
entry from the previous run is still present after the round trip. -/
theorem c4_counterexample :
    stop_server sC4 = .stopped sC4stopped ∧
    (start_server sC4stopped).current_users ≠ [] :=
  ⟨rfl, by decide⟩

/-- C4 amended: `stop_server` followed by `start_server` does not empty the
registry; the round trip preserves the key set of `__current_users`
(workers are stopped and transports closed, but every entry of the
previous run survives). -/
theorem c4_amended_keys (s : ServerState) (s2 : ServerState)
    (h : stop_server s = .stopped s2) :
    (start_server s2).current_users.map Prod.fst = s.current_users.map Prod.fst := by
  simp only [stop_server] at h
  split at h
  · split at h
    · simp at h
    · simp at h
      rw [← h]
      exact close_all_keys _ _ (by assumption)
  · simp at h

/-- C4 witness: the amended theorem applied to the concrete round trip from
`sC4`. -/
theorem c4_amended_keys_witness :
    (start_server sC4stopped).current_users.map Prod.fst =
      sC4.current_users.map Prod.fst :=
  c4_amended_keys sC4 sC4stopped rfl

/-! ## Claim about the worker reaper (C8) -/

/-- C8: each iteration of `__internal_worker_join` joins the dequeued
thread with the 10-second bound and requeues it exactly when it is still
alive afterwards; with an empty queue and the stop flag clear it sleeps
and loops; and the loop exits exactly when the stop flag is set and the
queue is empty — never earlier. -/
theorem c8_reaper_loop (alive : WorkerThread → Bool) (st : ReaperState) :
    (reaper_step alive st = .exited ↔ st.stop = true ∧ st.queue = []) ∧
    (∀ t rest, st.queue = t :: rest →
      reaper_step alive st =
        .joined t reaper_join_bound (alive t)
          ⟨st.stop, if alive t then rest ++ [t] else rest⟩) ∧
    (st.queue = [] → st.stop = false → reaper_step alive st = .sleptEmpty st) := by
  obtain ⟨stop, queue⟩ := st
  cases stop <;> cases queue <;>
    simp [reaper_step, reaper_loop_continues, reaper_join_bound]

/-- C8 witness: the reaper theorem applied to a loop that exits on
stop-and-empty, and to a queue holding one still-alive thread, which is
joined with the 10-second bound and requeued. -/
theorem c8_reaper_loop_witness :
    reaper_step (fun _ => true) ⟨true, []⟩ = .exited ∧
    reaper_step (fun _ => true) ⟨false, [⟨"dev1", true⟩]⟩ =
      .joined ⟨"dev1", true⟩ reaper_join_bound true ⟨false, [⟨"dev1", true⟩]⟩ := by
  refine ⟨((c8_reaper_loop (fun _ => true) ⟨true, []⟩).1).mpr ⟨rfl, rfl⟩, ?_⟩
  have h := (c8_reaper_loop (fun _ => true) ⟨false, [⟨"dev1", true⟩]⟩).2.1 ⟨"dev1", true⟩ [] rfl
  simpa using h

/-! ## Claim about `get_origin_communicator` (C9) -/

/-- Broker state for C9: `dev2` is registered without a worker instance;
`dev1` is absent. -/
def sC9 : ServerState :=
  { current_users := [("dev2", ⟨"dev2", ⟨1, false⟩, none, none⟩)],
    users_connecting := [],
    stop_flag := false,
    join_thread_alive := true }

/-- C9: the claim says `get_origin_communicator` returns the absent value
`None` on a miss, as its `Optional[AbstractCommunicator]` annotation
states.  The code instead returns the literal `False` — both for an origin
with no entry and for an entry without a worker instance — contradicting
its own declared return type. -/
theorem c9_miss_returns_false :
    get_origin_communicator sC9 "dev1" = .pyFalse ∧
    get_origin_communicator sC9 "dev2" = .pyFalse ∧
    CommunicatorResult.pyFalse ≠ CommunicatorResult.pyNone :=
  ⟨rfl, rfl, by decide⟩

end MAD
